import Mathlib

/-!
Verification of the MCP-UI iframe message protocol: the Sender
(`sendMcpMessage`), the Render-Data Waiter (`waitForRenderData`) and the
Lifecycle Initializer (`useMcpUiInit`) from `app/utils/mcp.ts` and its
exercise variants.  The embedding models JavaScript runtime values, the
per-call listener/promise state, and the message handlers as pure Lean
functions translated clause by clause from the source.
-/

namespace MCPUI

/-- A JavaScript-like runtime value, rich enough to express every payload the
protocol carries: `undefined` (absent fields), `null`, booleans, numbers,
strings, arrays, plain objects (ordered field lists) and `Error` objects. -/
inductive Value where
  | vUndefined
  | vNull
  | vBool (b : Bool)
  | vNum (n : Int)
  | vStr (s : String)
  | vArr (elems : List Value)
  | vObj (fields : List (String × Value))
  | vError (message : String)

/-- Property access `v[key]` in JavaScript style: on an object, the value of
the first field with that key, `undefined` when the field is missing; on any
non-object, `undefined`. -/
def getField : Value → String → Value
  | .vObj fields, key =>
    match fields.find? (fun p => p.1 == key) with
    | some p => p.2
    | none => .vUndefined
  | _, _ => .vUndefined

/-- JavaScript strict equality `v === s` against a string literal: true
exactly when `v` is that string. -/
def isStr (v : Value) (s : String) : Bool :=
  match v with
  | .vStr t => t == s
  | _ => false

/-- JavaScript truthiness: `undefined`, `null`, `false`, `0` and the empty
string are falsy; every array, object and `Error` is truthy. -/
def truthy : Value → Bool
  | .vUndefined => false
  | .vNull => false
  | .vBool b => b
  | .vNum n => n != 0
  | .vStr s => s != ""
  | .vArr _ => true
  | .vObj _ => true
  | .vError _ => true

/-- A Zod-style schema, abstracted to its `safeParse` behaviour: on success it
yields the parsed/coerced value, on failure a structured validation error. -/
structure Schema where
  safeParse : Value → Except Value Value

/-- A sample schema modelling `z.boolean()`: accepts booleans unchanged and
rejects everything else with a structured error. -/
def boolSchema : Schema where
  safeParse v :=
    match v with
    | .vBool b => .ok (.vBool b)
    | _ => .error (.vObj [("code", .vStr "invalid_type"), ("expected", .vStr "boolean")])

/-- Outcome of running a message handler on one inbound event: ignore it
(listener stays installed), or remove the listener and reject or resolve the
promise with the given value. -/
inductive HandleResult where
  | ignore
  | reject (e : Value)
  | resolve (v : Value)

/-- Settlement state of the per-call promise. -/
inductive PromiseState where
  | pending
  | resolved (v : Value)
  | rejected (e : Value)

/-- Whether a promise state is settled (resolved or rejected). -/
def isSettled : PromiseState → Bool
  | .pending => false
  | .resolved _ => true
  | .rejected _ => true

/-- Promise settlement is first-wins: settling an already settled promise is a
no-op, matching ECMAScript promise semantics. -/
def settle (p : PromiseState) (q : PromiseState) : PromiseState :=
  match p with
  | .pending => q
  | _ => p

/-- Observable per-call state: whether this call's `handleMessage` listener is
still installed on the window, and the settlement state of its promise. -/
structure CallState where
  listenerActive : Bool
  promise : PromiseState

/-- State of a freshly installed call: listener attached, promise pending. -/
def initialCallState : CallState where
  listenerActive := true
  promise := .pending

/-- Deliver one inbound event to a call: a removed listener never runs; an
active listener applies the handler, and on any non-ignore outcome removes
itself and settles the promise. -/
def stepWith (handle : Value → HandleResult) (st : CallState) (data : Value) : CallState :=
  if st.listenerActive then
    match handle data with
    | .ignore => st
    | .reject e => { listenerActive := false, promise := settle st.promise (.rejected e) }
    | .resolve v => { listenerActive := false, promise := settle st.promise (.resolved v) }
  else st

/-- Deliver a list of inbound events in order. -/
def runWith (handle : Value → HandleResult) : CallState → List Value → CallState
  | st, [] => st
  | st, e :: es => runWith handle (stepWith handle st e) es

/-- The `handleMessage` closure of `sendMcpMessage`, translated from the
source: drop events whose `type` is not the literal `'ui-message-response'`
or whose `messageId` differs from the minted id; otherwise destructure
`event.data.payload`, reject a truthy `error` unparsed, resolve the raw
`response` when no schema was supplied, and otherwise run `schema.safeParse`,
rejecting with its error on failure and resolving its parsed data on
success. -/
def sendHandleMessage (schema : Option Schema) (messageId : String) (data : Value) :
    HandleResult :=
  if !isStr (getField data "type") "ui-message-response" then .ignore
  else if !isStr (getField data "messageId") messageId then .ignore
  else
    let payload := getField data "payload"
    let response := getField payload "response"
    let error := getField payload "error"
    if truthy error then .reject error
    else
      match schema with
      | none => .resolve response
      | some s =>
        match s.safeParse response with
        | .error err => .reject err
        | .ok parsed => .resolve parsed

/-- The `handleMessage` closure of `waitForRenderData`, translated from the
source: drop events whose `type` is not `'ui-lifecycle-iframe-render-data'`
(there is no `messageId` check); otherwise destructure `event.data.payload`,
reject a truthy `error`, resolve raw `renderData` when no schema is supplied
(a dead branch in practice, kept for faithfulness), and otherwise validate
via `schema.safeParse`. -/
def waitHandleMessage (schema : Option Schema) (data : Value) : HandleResult :=
  if !isStr (getField data "type") "ui-lifecycle-iframe-render-data" then .ignore
  else
    let payload := getField data "payload"
    let renderData := getField payload "renderData"
    let error := getField payload "error"
    if truthy error then .reject error
    else
      match schema with
      | none => .resolve renderData
      | some s =>
        match s.safeParse renderData with
        | .error err => .reject err
        | .ok parsed => .resolve parsed

/-- The embedding of `window.parent`: whether a parent context exists and
whether it is the current context itself (`window.parent === window`). -/
structure HostEnv where
  parentExists : Bool
  parentIsSelf : Bool
deriving DecidableEq, Repr

/-- The guard of `sendMcpMessage`: a usable host exists when `window.parent`
is set and distinct from `window`. -/
def hasDistinctParent (env : HostEnv) : Bool :=
  env.parentExists && !env.parentIsSelf

/-- Observable outcome of a call's synchronous setup phase: the outbound
messages posted, whether a listener was installed, and the promise state. -/
structure InitResult where
  posted : List Value
  listenerInstalled : Bool
  promise : PromiseState

/-- The outbound request envelope `{ type, messageId, payload }` posted by
`sendMcpMessage`. -/
def mkRequestEnvelope (type : Value) (messageId : String) (payload : Value) : Value :=
  .vObj [("type", type), ("messageId", .vStr messageId), ("payload", payload)]

/-- The rejection value of the no-parent branch: `new Error('No parent frame
available')`. -/
def noParentError : Value := .vError "No parent frame available"

/-- Synchronous setup of `sendMcpMessage`, translated from the source: without
a distinct parent the promise rejects immediately with an `Error`, nothing is
posted and no listener is installed; otherwise exactly the one request
envelope is posted and the listener installed, promise pending. -/
def sendMcpMessageInit (env : HostEnv) (type : Value) (messageId : String)
    (payload : Value) : InitResult :=
  if !hasDistinctParent env then
    { posted := [], listenerInstalled := false, promise := .rejected noParentError }
  else
    { posted := [mkRequestEnvelope type messageId payload]
      listenerInstalled := true
      promise := .pending }

/-- The lifecycle ready signal `{ type: 'ui-lifecycle-iframe-ready' }`. -/
def readySignal : Value := .vObj [("type", .vStr "ui-lifecycle-iframe-ready")]

/-- Synchronous setup of `waitForRenderData`, translated from the source: the
ready signal is posted and the listener installed unconditionally — there is
no parent-context guard, so in every environment the promise starts
pending. -/
def waitForRenderDataInit (_env : HostEnv) : InitResult where
  posted := [readySignal]
  listenerInstalled := true
  promise := .pending

/-- A measurable root element with its rendered content dimensions
(`clientHeight`/`clientWidth`). -/
structure RootElement where
  clientHeight : Nat
  clientWidth : Nat
deriving DecidableEq, Repr

/-- The size-change signal `{ type: 'ui-size-change', payload: {height,
width} }`. -/
def sizeSignal (height width : Nat) : Value :=
  .vObj [("type", .vStr "ui-size-change"),
         ("payload", .vObj [("height", .vNum height), ("width", .vNum width)])]

/-- The mount effect of `useMcpUiInit`, translated from the source as the list
of messages it posts in order: the ready signal first, unconditionally; then,
only when the root ref holds an element, one size-change signal with that
element's measured dimensions. -/
def useMcpUiInit (root : Option RootElement) : List Value :=
  let msgs := [readySignal]
  match root with
  | none => msgs
  | some r => msgs ++ [sizeSignal r.clientHeight r.clientWidth]

/-- A well-formed Sender reply event `{ type: 'ui-message-response',
messageId, payload }`. -/
def mkResponseEvent (messageId : String) (payload : Value) : Value :=
  .vObj [("type", .vStr "ui-message-response"),
         ("messageId", .vStr messageId),
         ("payload", payload)]

/-- A render-data push event `{ type: 'ui-lifecycle-iframe-render-data',
payload }`. -/
def mkRenderEvent (payload : Value) : Value :=
  .vObj [("type", .vStr "ui-lifecycle-iframe-render-data"), ("payload", payload)]

/-- A render-data push event that additionally carries a `messageId` field,
used to state that the Waiter performs no correlation. -/
def mkRenderEventWithId (messageId : Value) (payload : Value) : Value :=
  .vObj [("type", .vStr "ui-lifecycle-iframe-render-data"),
         ("messageId", messageId),
         ("payload", payload)]

theorem getField_mkResponseEvent_type (mid : String) (p : Value) :
    getField (mkResponseEvent mid p) "type" = .vStr "ui-message-response" := rfl

theorem getField_mkResponseEvent_messageId (mid : String) (p : Value) :
    getField (mkResponseEvent mid p) "messageId" = .vStr mid := rfl

theorem getField_mkResponseEvent_payload (mid : String) (p : Value) :
    getField (mkResponseEvent mid p) "payload" = p := rfl

theorem getField_mkRenderEvent_type (p : Value) :
    getField (mkRenderEvent p) "type" = .vStr "ui-lifecycle-iframe-render-data" := rfl

theorem getField_mkRenderEvent_payload (p : Value) :
    getField (mkRenderEvent p) "payload" = p := rfl

theorem getField_mkRenderEventWithId_type (midv p : Value) :
    getField (mkRenderEventWithId midv p) "type" =
      .vStr "ui-lifecycle-iframe-render-data" := rfl

theorem getField_mkRenderEventWithId_payload (midv p : Value) :
    getField (mkRenderEventWithId midv p) "payload" = p := rfl

/-- A removed listener never observes an event. -/
theorem stepWith_inactive (h : Value → HandleResult) (st : CallState) (e : Value)
    (hL : st.listenerActive = false) : stepWith h st e = st := by
  simp [stepWith, hL]

/-- A removed listener never observes any event of a whole trace. -/
theorem runWith_inactive (h : Value → HandleResult) (st : CallState) (es : List Value)
    (hL : st.listenerActive = false) : runWith h st es = st := by
  induction es with
  | nil => rfl
  | cons e es ih => rw [runWith, stepWith_inactive h st e hL]; exact ih

/-- An ignored event leaves the call state unchanged. -/
theorem stepWith_of_ignore (h : Value → HandleResult) (st : CallState) (e : Value)
    (hI : h e = .ignore) : stepWith h st e = st := by
  simp [stepWith, hI]

/-- A trace of ignored events leaves the call state unchanged. -/
theorem runWith_of_ignore (h : Value → HandleResult) (st : CallState) (es : List Value)
    (hI : ∀ e ∈ es, h e = .ignore) : runWith h st es = st := by
  induction es with
  | nil => rfl
  | cons e es ih =>
    rw [runWith, stepWith_of_ignore h st e (hI e (by simp))]
    exact ih (fun e' he' => hI e' (by simp [he']))

/-- A non-ignore handler outcome removes the listener and settles the pending
promise of a fresh call. -/
theorem stepWith_settles (h : Value → HandleResult) (e : Value)
    (hne : h e ≠ .ignore) :
    (stepWith h initialCallState e).listenerActive = false ∧
    isSettled (stepWith h initialCallState e).promise = true := by
  cases hr : h e with
  | ignore => exact absurd hr hne
  | reject x => simp [stepWith, initialCallState, hr, settle, isSettled]
  | resolve x => simp [stepWith, initialCallState, hr, settle, isSettled]

/-- On a well-formed matching reply event, the Sender handler reduces to the
payload interpretation step: truthy error wins, then the schema decides. -/
theorem sendHandleMessage_match (schema : Option Schema) (mid : String) (payload : Value) :
    sendHandleMessage schema mid (mkResponseEvent mid payload) =
      (if truthy (getField payload "error") then
        HandleResult.reject (getField payload "error")
       else
        match schema with
        | none => HandleResult.resolve (getField payload "response")
        | some s =>
          match s.safeParse (getField payload "response") with
          | .error err => HandleResult.reject err
          | .ok parsed => HandleResult.resolve parsed) := by
  simp [sendHandleMessage, getField_mkResponseEvent_type, getField_mkResponseEvent_messageId,
    getField_mkResponseEvent_payload, isStr]

/-- Any event whose `type` or `messageId` does not match is ignored by the
Sender handler. -/
theorem sendHandleMessage_nonmatch (schema : Option Schema) (mid : String) (e : Value)
    (h : isStr (getField e "type") "ui-message-response" = false ∨
      isStr (getField e "messageId") mid = false) :
    sendHandleMessage schema mid e = .ignore := by
  rcases h with h | h
  · simp [sendHandleMessage, h]
  · rcases ht : isStr (getField e "type") "ui-message-response" with _ | _ <;>
      simp [sendHandleMessage, ht, h]

/-- On a render-data event, the Waiter handler reduces to the payload
interpretation step, independently of any `messageId` field. -/
theorem waitHandleMessage_match (schema : Option Schema) (payload : Value) :
    waitHandleMessage schema (mkRenderEvent payload) =
      (if truthy (getField payload "error") then
        HandleResult.reject (getField payload "error")
       else
        match schema with
        | none => HandleResult.resolve (getField payload "renderData")
        | some s =>
          match s.safeParse (getField payload "renderData") with
          | .error err => HandleResult.reject err
          | .ok parsed => HandleResult.resolve parsed) := by
  simp [waitHandleMessage, getField_mkRenderEvent_type, getField_mkRenderEvent_payload, isStr]

/-- Any event whose `type` is not the render-data marker is ignored by the
Waiter handler. -/
theorem waitHandleMessage_nonmatch (schema : Option Schema) (e : Value)
    (h : isStr (getField e "type") "ui-lifecycle-iframe-render-data" = false) :
    waitHandleMessage schema e = .ignore := by
  simp [waitHandleMessage, h]

/-- A `messageId` field on a render-data event is irrelevant to the Waiter
handler. -/
theorem waitHandleMessage_matchWithId (schema : Option Schema) (midv payload : Value) :
    waitHandleMessage schema (mkRenderEventWithId midv payload) =
      waitHandleMessage schema (mkRenderEvent payload) := by
  rw [waitHandleMessage_match]
  simp [waitHandleMessage, getField_mkRenderEventWithId_type,
    getField_mkRenderEventWithId_payload, isStr]

/-- C1: Correlation soundness — any inbound event whose `type` is not
`'ui-message-response'` or whose `messageId` differs from the minted id
leaves that call's observable state unchanged (promise unsettled, listener
installed); hence for two concurrent calls with distinct ids, a reply tagged
with the first id never affects the call that minted the second, regardless
of arrival order. -/
theorem sender_correlation_sound :
    (∀ (schema : Option Schema) (mid : String) (st : CallState) (e : Value),
      (isStr (getField e "type") "ui-message-response" = false ∨
        isStr (getField e "messageId") mid = false) →
      stepWith (sendHandleMessage schema mid) st e = st) ∧
    (∀ (schemaB : Option Schema) (midA midB : String) (stB : CallState) (payload : Value),
      midA ≠ midB →
      stepWith (sendHandleMessage schemaB midB) stB (mkResponseEvent midA payload) =
        stB) := by
  have part1 : ∀ (schema : Option Schema) (mid : String) (st : CallState) (e : Value),
      (isStr (getField e "type") "ui-message-response" = false ∨
        isStr (getField e "messageId") mid = false) →
      stepWith (sendHandleMessage schema mid) st e = st := by
    intro schema mid st e h
    exact stepWith_of_ignore _ st e (sendHandleMessage_nonmatch schema mid e h)
  refine ⟨part1, ?_⟩
  intro schemaB midA midB stB payload hne
  refine part1 schemaB midB stB _ (Or.inr ?_)
  rw [getField_mkResponseEvent_messageId]
  simp only [isStr]
  exact beq_eq_false_iff_ne.mpr hne

/-- Witness for C1: a reply tagged `idA` and an unrelated event both leave a
call minted with `idB` untouched. -/
theorem sender_correlation_sound_witness :
    stepWith (sendHandleMessage none "idB") initialCallState
      (mkResponseEvent "idA" (.vObj [("response", .vStr "for-A")])) = initialCallState ∧
    stepWith (sendHandleMessage none "idB") initialCallState
      (.vObj [("type", .vStr "other-event")]) = initialCallState :=
  ⟨sender_correlation_sound.2 none "idA" "idB" initialCallState
      (.vObj [("response", .vStr "for-A")]) (by decide),
   sender_correlation_sound.1 none "idB" initialCallState
      (.vObj [("type", .vStr "other-event")]) (Or.inl (by decide))⟩

/-- C2: At-most-once settlement — delivering a first matching reply to a
fresh call removes the listener and settles the promise (the source removes
the listener before interpreting the payload); thereafter any trace of
further inbound events, in particular ones carrying the same `messageId`,
leaves the state unchanged, so the promise is settled at most once. -/
theorem sender_at_most_once (schema : Option Schema) (mid : String) (payload : Value)
    (es : List Value) :
    (stepWith (sendHandleMessage schema mid) initialCallState
        (mkResponseEvent mid payload)).listenerActive = false ∧
    isSettled (stepWith (sendHandleMessage schema mid) initialCallState
        (mkResponseEvent mid payload)).promise = true ∧
    runWith (sendHandleMessage schema mid)
        (stepWith (sendHandleMessage schema mid) initialCallState
          (mkResponseEvent mid payload)) es =
      stepWith (sendHandleMessage schema mid) initialCallState
        (mkResponseEvent mid payload) := by
  have hni : sendHandleMessage schema mid (mkResponseEvent mid payload) ≠ .ignore := by
    rw [sendHandleMessage_match]
    split
    · exact fun h => nomatch h
    · cases schema with
      | none => exact fun h => nomatch h
      | some s =>
        cases hp : s.safeParse (getField payload "response") with
        | error e => simp [hp]
        | ok v => simp [hp]
  obtain ⟨hL, hS⟩ := stepWith_settles _ _ hni
  exact ⟨hL, hS, runWith_inactive _ _ es hL⟩

/-- C6: No-host immediate failure — without a distinct parent context,
`sendMcpMessage` rejects immediately with an `Error`, posts nothing and
installs no listener; with a distinct parent it posts exactly one envelope
carrying the given type, the minted `messageId` and the payload, installs the
listener and leaves the promise pending. -/
theorem sender_no_host_failure (env : HostEnv) (type : Value) (mid : String)
    (payload : Value) :
    (hasDistinctParent env = false →
      sendMcpMessageInit env type mid payload =
        { posted := [], listenerInstalled := false,
          promise := .rejected noParentError }) ∧
    (hasDistinctParent env = true →
      sendMcpMessageInit env type mid payload =
        { posted := [mkRequestEnvelope type mid payload], listenerInstalled := true,
          promise := .pending }) := by
  constructor <;> intro h <;> simp [sendMcpMessageInit, h]

/-- Witness for C6: a top-level window (parent is self) rejects with nothing
posted; an embedded window posts exactly the one request envelope. -/
theorem sender_no_host_failure_witness :
    sendMcpMessageInit { parentExists := true, parentIsSelf := true }
        (.vStr "tool") "m1" .vNull =
      { posted := [], listenerInstalled := false,
        promise := .rejected noParentError } ∧
    sendMcpMessageInit { parentExists := true, parentIsSelf := false }
        (.vStr "tool") "m1" .vNull =
      { posted := [mkRequestEnvelope (.vStr "tool") "m1" .vNull],
        listenerInstalled := true, promise := .pending } :=
  ⟨(sender_no_host_failure { parentExists := true, parentIsSelf := true }
      (.vStr "tool") "m1" .vNull).1 rfl,
   (sender_no_host_failure { parentExists := true, parentIsSelf := false }
      (.vStr "tool") "m1" .vNull).2 rfl⟩

/-- C8: on every mount the ready signal is posted first and unconditionally;
exactly one size-change signal carrying the root element's measured
dimensions follows when a root element is available, and the size step is
skipped silently (no further message) when it is not. -/
theorem init_lifecycle_order (root : Option RootElement) :
    (useMcpUiInit root).head? = some readySignal ∧
    (root = none → useMcpUiInit root = [readySignal]) ∧
    (∀ r, root = some r →
      useMcpUiInit root = [readySignal, sizeSignal r.clientHeight r.clientWidth]) := by
  refine ⟨?_, ?_, ?_⟩
  · cases root <;> rfl
  · intro h; rw [h]; rfl
  · intro r h; rw [h]; rfl

/-- Witness for C8: no root element yields the ready signal alone; a measured
root element yields ready then its size. -/
theorem init_lifecycle_order_witness :
    useMcpUiInit none = [readySignal] ∧
    useMcpUiInit (some { clientHeight := 120, clientWidth := 300 }) =
      [readySignal, sizeSignal 120 300] :=
  ⟨(init_lifecycle_order none).2.1 rfl,
   (init_lifecycle_order (some { clientHeight := 120, clientWidth := 300 })).2.2
      { clientHeight := 120, clientWidth := 300 } rfl⟩

/-- C3 counterexample: a matching reply whose payload has the `error` field
present but holding the falsy value `false` — with a `response` also present —
is not rejected with that error as the claim states; the Sender resolves with
the response instead, because the source tests `if (error)`, i.e.
truthiness. -/
theorem sender_error_presence_counterexample :
    sendHandleMessage none "m1"
      (mkResponseEvent "m1" (.vObj [("error", .vBool false), ("response", .vStr "ok")])) =
      HandleResult.resolve (.vStr "ok") ∧
    sendHandleMessage none "m1"
      (mkResponseEvent "m1" (.vObj [("error", .vBool false), ("response", .vStr "ok")])) ≠
      HandleResult.reject (.vBool false) :=
  ⟨rfl, fun h => nomatch h⟩

/-- C3 (amended): for every matching reply whose payload carries a truthy
`error` value, `sendMcpMessage` rejects with that error value unmodified and
unparsed — even when a `response` field is also present, and regardless of
whether a schema was supplied (the error check precedes the schema check). -/
theorem sender_error_truthy_precedence (schema : Option Schema) (mid : String)
    (payload : Value) (he : truthy (getField payload "error") = true) :
    sendHandleMessage schema mid (mkResponseEvent mid payload) =
      HandleResult.reject (getField payload "error") := by
  rw [sendHandleMessage_match, if_pos (by simp [he])]

/-- Witness for the amended C3: with a schema supplied and a schema-valid
`response` also present, a truthy error `'boom'` still rejects, unparsed. -/
theorem sender_error_truthy_precedence_witness :
    sendHandleMessage (some boolSchema) "m1"
      (mkResponseEvent "m1" (.vObj [("error", .vStr "boom"), ("response", .vBool true)])) =
      HandleResult.reject (.vStr "boom") :=
  sender_error_truthy_precedence (some boolSchema) "m1"
    (.vObj [("error", .vStr "boom"), ("response", .vBool true)]) (by decide)

/-- C4: Schema gate — with a schema supplied, a matching error-free reply has
its `response` run through the validator: a failing parse rejects with the
validator's structured error (never resolving with the unvalidated value), a
succeeding parse resolves with the parsed value. -/
theorem sender_schema_gate (s : Schema) (mid : String) (payload : Value)
    (he : truthy (getField payload "error") = false) :
    (∀ err, s.safeParse (getField payload "response") = .error err →
      sendHandleMessage (some s) mid (mkResponseEvent mid payload) =
        HandleResult.reject err) ∧
    (∀ v, s.safeParse (getField payload "response") = .ok v →
      sendHandleMessage (some s) mid (mkResponseEvent mid payload) =
        HandleResult.resolve v) := by
  constructor <;> intro x hx <;>
    rw [sendHandleMessage_match, if_neg (by simp [he])] <;> simp [hx]

/-- Witness for C4 at the `z.boolean()` model: a non-boolean response rejects
with the structured validation error, a boolean response resolves parsed. -/
theorem sender_schema_gate_witness :
    sendHandleMessage (some boolSchema) "m1"
      (mkResponseEvent "m1" (.vObj [("response", .vNum 3)])) =
      HandleResult.reject
        (.vObj [("code", .vStr "invalid_type"), ("expected", .vStr "boolean")]) ∧
    sendHandleMessage (some boolSchema) "m2"
      (mkResponseEvent "m2" (.vObj [("response", .vBool true)])) =
      HandleResult.resolve (.vBool true) :=
  ⟨(sender_schema_gate boolSchema "m1" (.vObj [("response", .vNum 3)]) (by decide)).1
      (.vObj [("code", .vStr "invalid_type"), ("expected", .vStr "boolean")]) rfl,
   (sender_schema_gate boolSchema "m2" (.vObj [("response", .vBool true)]) (by decide)).2
      (.vBool true) rfl⟩

/-- C5: No-schema passthrough — without a schema, a matching error-free reply
resolves the promise with the payload's `response` value verbatim, for any
value (including `null`, arrays and nested objects, since `payload` ranges
over all values). -/
theorem sender_no_schema_passthrough (mid : String) (payload : Value)
    (he : truthy (getField payload "error") = false) :
    sendHandleMessage none mid (mkResponseEvent mid payload) =
      HandleResult.resolve (getField payload "response") := by
  rw [sendHandleMessage_match, if_neg (by simp [he])]

/-- Witness for C5 at a nested-object response containing `null` and an
array. -/
theorem sender_no_schema_passthrough_witness :
    sendHandleMessage none "m1"
      (mkResponseEvent "m1"
        (.vObj [("response", .vObj [("items", .vArr [.vNull, .vNum 1])])])) =
      HandleResult.resolve (.vObj [("items", .vArr [.vNull, .vNum 1])]) :=
  sender_no_schema_passthrough "m1"
    (.vObj [("response", .vObj [("items", .vArr [.vNull, .vNum 1])])]) (by decide)

/-- C9: in both the Sender and the Waiter the reply's `error` field is tested
for truthiness, not presence: a present-but-falsy error (`0`, `''`, `false`,
`null`) does not cause rejection — the Sender resolves with the `response`
and the Waiter proceeds to schema-validate the `renderData`. -/
theorem falsy_error_treated_as_absent (mid : String) (err response renderData : Value)
    (s : Schema) (hf : truthy err = false) :
    sendHandleMessage none mid
      (mkResponseEvent mid (.vObj [("error", err), ("response", response)])) =
      HandleResult.resolve response ∧
    waitHandleMessage (some s)
      (mkRenderEvent (.vObj [("error", err), ("renderData", renderData)])) =
      (match s.safeParse renderData with
       | .error e => HandleResult.reject e
       | .ok v => HandleResult.resolve v) := by
  have h1 : getField (.vObj [("error", err), ("response", response)]) "error" = err := rfl
  have h2 : getField (.vObj [("error", err), ("response", response)]) "response" =
      response := rfl
  have h3 : getField (.vObj [("error", err), ("renderData", renderData)]) "error" = err := rfl
  have h4 : getField (.vObj [("error", err), ("renderData", renderData)]) "renderData" =
      renderData := rfl
  constructor
  · rw [sendHandleMessage_match, h1, h2, if_neg (by simp [hf])]
  · rw [waitHandleMessage_match, h3, h4, if_neg (by simp [hf])]

/-- Witness for C9: a present error `0` with response `'ok'` resolves in the
Sender; a present error `''` with boolean render data validates and resolves
in the Waiter. -/
theorem falsy_error_treated_as_absent_witness :
    sendHandleMessage none "m1"
      (mkResponseEvent "m1" (.vObj [("error", .vNum 0), ("response", .vStr "ok")])) =
      HandleResult.resolve (.vStr "ok") ∧
    waitHandleMessage (some boolSchema)
      (mkRenderEvent (.vObj [("error", .vStr ""), ("renderData", .vBool true)])) =
      HandleResult.resolve (.vBool true) :=
  ⟨(falsy_error_treated_as_absent "m1" (.vNum 0) (.vStr "ok") .vNull boolSchema
      (by decide)).1,
   (falsy_error_treated_as_absent "m1" (.vStr "") (.vStr "ok") (.vBool true) boolSchema
      (by decide)).2⟩

/-- C7 counterexample: a render-data push whose payload has the `error` field
present but holding the falsy value `0`, alongside schema-valid render data,
is not rejected with that error as the claim states — the Waiter validates
and resolves the render data instead, because the source tests `if (error)`,
i.e. truthiness. -/
theorem wait_error_presence_counterexample :
    waitHandleMessage (some boolSchema)
      (mkRenderEvent (.vObj [("error", .vNum 0), ("renderData", .vBool true)])) =
      HandleResult.resolve (.vBool true) ∧
    waitHandleMessage (some boolSchema)
      (mkRenderEvent (.vObj [("error", .vNum 0), ("renderData", .vBool true)])) ≠
      HandleResult.reject (.vNum 0) :=
  ⟨rfl, fun h => nomatch h⟩

/-- C7 (amended): `waitForRenderData` posts the ready signal, then waits for
the first inbound event whose type is `'ui-lifecycle-iframe-render-data'`
with no `messageId` correlation; on that first match it removes its listener,
rejects with the payload's error when that error is truthy (a
present-but-falsy error is treated as absent), and otherwise validates the
payload's `renderData` against the supplied schema, rejecting with the
validator's error on mismatch and resolving with the parsed value on
success. -/
theorem wait_render_data_behavior (s : Schema) :
    (∀ env : HostEnv, waitForRenderDataInit env =
      { posted := [readySignal], listenerInstalled := true, promise := .pending }) ∧
    (∀ (st : CallState) (e : Value),
      isStr (getField e "type") "ui-lifecycle-iframe-render-data" = false →
      stepWith (waitHandleMessage (some s)) st e = st) ∧
    (∀ (midv p : Value),
      waitHandleMessage (some s) (mkRenderEventWithId midv p) =
        waitHandleMessage (some s) (mkRenderEvent p)) ∧
    (∀ p, truthy (getField p "error") = true →
      stepWith (waitHandleMessage (some s)) initialCallState (mkRenderEvent p) =
        { listenerActive := false, promise := .rejected (getField p "error") }) ∧
    (∀ p err, truthy (getField p "error") = false →
      s.safeParse (getField p "renderData") = .error err →
      stepWith (waitHandleMessage (some s)) initialCallState (mkRenderEvent p) =
        { listenerActive := false, promise := .rejected err }) ∧
    (∀ p v, truthy (getField p "error") = false →
      s.safeParse (getField p "renderData") = .ok v →
      stepWith (waitHandleMessage (some s)) initialCallState (mkRenderEvent p) =
        { listenerActive := false, promise := .resolved v }) ∧
    (∀ (st : CallState) (es : List Value), st.listenerActive = false →
      runWith (waitHandleMessage (some s)) st es = st) := by
  refine ⟨fun env => rfl, ?_, fun midv p => waitHandleMessage_matchWithId (some s) midv p,
    ?_, ?_, ?_, fun st es hL => runWith_inactive _ st es hL⟩
  · intro st e h
    exact stepWith_of_ignore _ st e (waitHandleMessage_nonmatch (some s) e h)
  · intro p hp
    have hm := waitHandleMessage_match (some s) p
    rw [if_pos (by simp [hp])] at hm
    simp [stepWith, initialCallState, hm, settle]
  · intro p err hp hq
    have hm := waitHandleMessage_match (some s) p
    rw [if_neg (by simp [hp])] at hm
    simp only [hq] at hm
    simp [stepWith, initialCallState, hm, settle]
  · intro p v hp hq
    have hm := waitHandleMessage_match (some s) p
    rw [if_neg (by simp [hp])] at hm
    simp only [hq] at hm
    simp [stepWith, initialCallState, hm, settle]

/-- Witness for the amended C7 at the `z.boolean()` model: a truthy error
rejects unparsed; valid render data resolves parsed; invalid render data
rejects with the structured validation error — each time with the listener
removed. -/
theorem wait_render_data_behavior_witness :
    stepWith (waitHandleMessage (some boolSchema)) initialCallState
      (mkRenderEvent (.vObj [("error", .vStr "denied")])) =
      { listenerActive := false, promise := .rejected (.vStr "denied") } ∧
    stepWith (waitHandleMessage (some boolSchema)) initialCallState
      (mkRenderEvent (.vObj [("renderData", .vBool true)])) =
      { listenerActive := false, promise := .resolved (.vBool true) } ∧
    stepWith (waitHandleMessage (some boolSchema)) initialCallState
      (mkRenderEvent (.vObj [("renderData", .vNum 7)])) =
      { listenerActive := false,
        promise := .rejected
          (.vObj [("code", .vStr "invalid_type"), ("expected", .vStr "boolean")]) } :=
  ⟨(wait_render_data_behavior boolSchema).2.2.2.1
      (.vObj [("error", .vStr "denied")]) (by decide),
   (wait_render_data_behavior boolSchema).2.2.2.2.2.1
      (.vObj [("renderData", .vBool true)]) (.vBool true) (by decide) rfl,
   (wait_render_data_behavior boolSchema).2.2.2.2.1
      (.vObj [("renderData", .vNum 7)])
      (.vObj [("code", .vStr "invalid_type"), ("expected", .vStr "boolean")])
      (by decide) rfl⟩

/-- C10: the Render-Data Waiter has no host-context precondition — in every
environment, including one with no distinct parent frame, it posts the ready
signal, installs its listener and starts pending; and over any trace
containing no render-data event the call stays exactly in its initial pending
state, never rejecting for lack of a host. -/
theorem wait_no_host_precondition :
    (∀ env : HostEnv, waitForRenderDataInit env =
      { posted := [readySignal], listenerInstalled := true, promise := .pending }) ∧
    (∀ (s : Option Schema) (es : List Value),
      (∀ e ∈ es, isStr (getField e "type") "ui-lifecycle-iframe-render-data" = false) →
      runWith (waitHandleMessage s) initialCallState es = initialCallState) := by
  refine ⟨fun env => rfl, ?_⟩
  intro s es hes
  exact runWith_of_ignore _ _ es (fun e he => waitHandleMessage_nonmatch s e (hes e he))

/-- Witness for C10: a top-level window still posts ready with a pending
promise, and a trace of one Sender-style reply leaves the Waiter pending. -/
theorem wait_no_host_precondition_witness :
    waitForRenderDataInit { parentExists := true, parentIsSelf := true } =
      { posted := [readySignal], listenerInstalled := true, promise := .pending } ∧
    runWith (waitHandleMessage none) initialCallState
      [mkResponseEvent "m1" (.vObj [("response", .vStr "ok")])] = initialCallState :=
  ⟨wait_no_host_precondition.1 { parentExists := true, parentIsSelf := true },
   wait_no_host_precondition.2 none
      [mkResponseEvent "m1" (.vObj [("response", .vStr "ok")])] (by decide)⟩

end MCPUI
